import Mathlib

/-!
Verification of the agent-workbench-python command/operation data model.

Shallow embedding of the repository sources:
  src/agent/config/command.py    (command variants, to_dict / init_from_dict)
  src/agent/config/operation.py  (Operation, _BrowserOperations, _LLMOperations)
  src/agent/config/session.py    (Session.__init__, exited, end_live_session)
  src/agent/miscellaneous/paths.py (get_save_path, get_live_session_path)

Python JSON-like values are modelled by the type PyVal below; Python dicts
are association sequences (insertion ordered, first match wins on lookup,
equality here is structural, which on canonically ordered dicts coincides
with Python dict equality).  Raised exceptions are modelled with Except
PyErr.  Machine-level concerns (uuid generation, file system contents,
environment variables) enter as explicit parameters.
-/

/-- Exceptions raised by the Python sources. -/
inductive PyErr where
  | keyError (key : String)
  | typeError (msg : String)
  | valueError (msg : String)
  | connectionError (msg : String)
  | invalidSessionError (msg : String)
  | indexError (msg : String)
  | notADirectoryError (msg : String)
deriving DecidableEq

/-- JSON-like Python values.  Lists and dicts are flattened into the
inductive (cons cells / key-value cells) so that equality is decidable. -/
inductive PyVal where
  | str (s : String)
  | int (n : Int)
  | bool (b : Bool)
  | nil
  | cons (hd tl : PyVal)
  | dnil
  | dcons (key : String) (val tl : PyVal)
deriving DecidableEq

/-- Builds a PyVal list from a Lean list. -/
def pyList : List PyVal → PyVal
  | [] => .nil
  | x :: xs => .cons x (pyList xs)

/-- Builds a PyVal dict from an ordered association list. -/
def pyDict : List (String × PyVal) → PyVal
  | [] => .dnil
  | (k, v) :: kvs => .dcons k v (pyDict kvs)

/-- Python `d[key]` on a dict: first matching key, KeyError when absent,
TypeError when the value is not a dict. -/
def PyVal.lookup : PyVal → String → Except PyErr PyVal
  | .dcons k v tl, key => if k = key then .ok v else tl.lookup key
  | .dnil, key => .error (.keyError key)
  | _, _ => .error (.typeError "value is not a dictionary")

/-- Python `key in d` / `d.__setitem__` support: true when the dict holds
the key. -/
def PyVal.hasKey : PyVal → String → Bool
  | .dcons k _ tl, key => k = key || tl.hasKey key
  | _, _ => false

/-- Python dict assignment `d[key] = v` on an association list: updates in
place when the key exists (keeping its position), otherwise appends. -/
def dictSet (kvs : List (String × PyVal)) (key : String) (v : PyVal) :
    List (String × PyVal) :=
  if kvs.any (fun kv => kv.1 = key) then
    kvs.map (fun kv => if kv.1 = key then (kv.1, v) else kv)
  else kvs ++ [(key, v)]

/-!
Commands (src/agent/config/command.py).

A command object is determined, for serialization purposes, by the fields
set in `Command.__init__` (command_type, command_name, params) or, for LLM
commands, by `LLMCommand.__init__` (message_type, params), because
`to_dict` is overridden exactly once, on LLMCommand.  The inductive Cmd
keeps those two shapes apart.
-/

/-- A command object: either a plain / browser command (Command.__init__
fields) or an LLM command (LLMCommand overrides to_dict). -/
inductive Cmd where
  | mk (command_type command_name : String) (params : PyVal)
  | llm (message_type : String) (message : PyVal)
deriving DecidableEq

/-- `self.command_type`: LLMCommand.__init__ passes "llm" to the base
constructor. -/
def Cmd.command_type : Cmd → String
  | .mk t _ _ => t
  | .llm _ _ => "llm"

/-- Command.to_dict (command.py 119-124) and the LLMCommand override
(command.py 151-152). -/
def Cmd.to_dict : Cmd → PyVal
  | .mk _ n p => pyDict [("command_name", .str n), ("params", p)]
  | .llm t m => pyDict [("message_type", .str t), ("message", m)]

/-- BrowserCommand.__init__ (command.py 323-336). -/
def BrowserCommand (command_name : String) (params : PyVal) : Cmd :=
  .mk "browser" command_name params

/-- Navigate.__init__ (command.py 339-353). -/
def Navigate (url : PyVal) : Cmd :=
  BrowserCommand "open_web_page" (pyDict [("url", url)])

/-- Navigate.init_from_dict (command.py 355-363). -/
def Navigate.init_from_dict (command_dict : PyVal) : Except PyErr Cmd := do
  let params ← command_dict.lookup "params"
  let url ← params.lookup "url"
  pure (Navigate url)

/-- BrowserFile.__init__ (command.py 377-399): stores file/snapshot names
and sets params["snapshot_name"] = snapshot_name before delegating to
BrowserCommand.  Only the serialized shape is kept here; the file_path
properties are modelled separately below. -/
def BrowserFile (command_name : String) (params : List (String × PyVal))
    (snapshot_name : PyVal) : Cmd :=
  BrowserCommand command_name (pyDict (dictSet params "snapshot_name" snapshot_name))

/-- FullPageScreenshot.__init__ (command.py 422-447). -/
def FullPageScreenshot (quality name _snapshot_name : PyVal) : Cmd :=
  BrowserFile "full_page_screenshot"
    [("quality", quality), ("name", name)] _snapshot_name

/-- FullPageScreenshot.init_from_dict (command.py 449-462). -/
def FullPageScreenshot.init_from_dict (command_dict : PyVal) : Except PyErr Cmd := do
  let params ← command_dict.lookup "params"
  let quality ← params.lookup "quality"
  let name ← params.lookup "name"
  let snap ← params.lookup "snapshot_name"
  pure (FullPageScreenshot quality name snap)

/-- ElementScreenShot.__init__ (command.py 488-514). -/
def ElementScreenShot (scale selector name _snapshot_name : PyVal) : Cmd :=
  BrowserFile "element_screenshot"
    [("scale", scale), ("name", name), ("selector", selector),
     ("snapshot_name", _snapshot_name)] _snapshot_name

/-- ElementScreenShot.init_from_dict (command.py 516-529). -/
def ElementScreenShot.init_from_dict (command_dict : PyVal) : Except PyErr Cmd := do
  let params ← command_dict.lookup "params"
  let scale ← params.lookup "scale"
  let selector ← params.lookup "selector"
  let name ← params.lookup "name"
  let snap ← params.lookup "snapshot_name"
  pure (ElementScreenShot scale selector name snap)

/-- CollectNodes.__init__ (command.py 554-579); wait_ready defaults to
False at the Python level, the caller always supplies it here. -/
def CollectNodes (selector _snapshot_name wait_ready : PyVal) : Cmd :=
  BrowserFile "collect_nodes"
    [("wait_ready", wait_ready), ("selector", selector),
     ("snapshot_name", _snapshot_name)] _snapshot_name

/-- CollectNodes.init_from_dict (command.py 581-593). -/
def CollectNodes.init_from_dict (command_dict : PyVal) : Except PyErr Cmd := do
  let params ← command_dict.lookup "params"
  let selector ← params.lookup "selector"
  let snap ← params.lookup "snapshot_name"
  let wait ← params.lookup "wait_ready"
  pure (CollectNodes selector snap wait)

/-- SaveHtml.__init__ (command.py 628-641). -/
def SaveHtml (_snapshot_name : PyVal) : Cmd :=
  BrowserFile "save_html" [("snapshot_name", _snapshot_name)] _snapshot_name

/-- SaveHtml.init_from_dict (command.py 643-651). -/
def SaveHtml.init_from_dict (command_dict : PyVal) : Except PyErr Cmd := do
  let params ← command_dict.lookup "params"
  let snap ← params.lookup "snapshot_name"
  pure (SaveHtml snap)

/-- Sleep.__init__ (command.py 665-678). -/
def Sleep (seconds : PyVal) : Cmd :=
  BrowserCommand "sleep" (pyDict [("seconds", seconds)])

/-- Sleep.init_from_dict (command.py 680-688). -/
def Sleep.init_from_dict (command_dict : PyVal) : Except PyErr Cmd := do
  let params ← command_dict.lookup "params"
  let seconds ← params.lookup "seconds"
  pure (Sleep seconds)

/-- Click.__init__ (command.py 702-716). -/
def Click (selector query_type : PyVal) : Cmd :=
  BrowserCommand "click"
    (pyDict [("selector", selector), ("query_type", query_type)])

/-- Click.init_from_dict (command.py 718-728). -/
def Click.init_from_dict (command_dict : PyVal) : Except PyErr Cmd := do
  let params ← command_dict.lookup "params"
  let selector ← params.lookup "selector"
  let qt ← params.lookup "query_type"
  pure (Click selector qt)

/-- LLMCommand.__init__ (command.py 137-152). -/
def LLMCommand (message_type : String) (message : PyVal) : Cmd :=
  .llm message_type message

/-- Standard.__init__ (command.py 155-169). -/
def Standard (role content : PyVal) : Cmd :=
  LLMCommand "standard" (pyDict [("role", role), ("content", content)])

/-- Standard.init_from_dict (command.py 171-179). -/
def Standard.init_from_dict (command_dict : PyVal) : Except PyErr Cmd := do
  let message ← command_dict.lookup "message"
  let role ← message.lookup "role"
  let content ← message.lookup "content"
  pure (Standard role content)

/-- Assistant.__init__ (command.py 268-282). -/
def Assistant (role content : PyVal) : Cmd :=
  LLMCommand "assistant" (pyDict [("role", role), ("content", content)])

/-- Assistant.init_from_dict (command.py 284-292). -/
def Assistant.init_from_dict (command_dict : PyVal) : Except PyErr Cmd := do
  let message ← command_dict.lookup "message"
  let role ← message.lookup "role"
  let content ← message.lookup "content"
  pure (Assistant role content)

/-- Tool.__init__ (command.py 295-307). -/
def Tool (message : PyVal) : Cmd := LLMCommand "tool" message

/-- Tool.init_from_dict (command.py 309-317). -/
def Tool.init_from_dict (command_dict : PyVal) : Except PyErr Cmd := do
  let message ← command_dict.lookup "message"
  pure (Tool message)

/-- The mutable state of a Multimodal command: role plus the content list
that add_content grows (command.py 198-214).  params aliases this list in
Python, so serializing uses the current content. -/
structure MultimodalState where
  role : PyVal
  content : List PyVal
deriving DecidableEq

/-- Multimodal.__init__ (command.py 203-214): empty content list. -/
def Multimodal (role : PyVal) : MultimodalState := ⟨role, []⟩

/-- Multimodal.add_content with b64=False (command.py 242-265).  The
b64=True branch reads an image file from disk and is not needed by any
claim here. -/
def Multimodal.add_content (m : MultimodalState) (ctype content : PyVal) :
    Except PyErr MultimodalState :=
  if ctype = .str "text" then
    .ok { m with content := m.content ++ [pyDict [("type", ctype), ("text", content)]] }
  else if ctype = .str "image_url" then
    .ok { m with content :=
      m.content ++ [pyDict [("type", ctype), ("image_url", pyDict [("url", content)])]] }
  else
    .error (.valueError "Invalid content type. Type must be text or image_url.")

/-- Serialization of a Multimodal command: LLMCommand.to_dict over the
params dict built in Multimodal.__init__ (role and the current content
list). -/
def MultimodalState.toCmd (m : MultimodalState) : Cmd :=
  LLMCommand "multimodal" (pyDict [("role", m.role), ("content", pyList m.content)])

/-- The loop body of Multimodal.init_from_dict (command.py 224-232): for
each content item, dispatch on item type text / other and call
add_content. -/
def Multimodal.loadContent (m : MultimodalState) : PyVal → Except PyErr MultimodalState
  | .nil => .ok m
  | .cons c rest => do
      let t ← c.lookup "type"
      let m2 ←
        if t = .str "text" then do
          let txt ← c.lookup "text"
          Multimodal.add_content m t txt
        else do
          let iu ← c.lookup "image_url"
          let u ← iu.lookup "url"
          Multimodal.add_content m t u
      Multimodal.loadContent m2 rest
  | _ => .error (.typeError "message content is not a list")

/-- Multimodal.init_from_dict (command.py 216-232). -/
def Multimodal.init_from_dict (command_dict : PyVal) : Except PyErr MultimodalState := do
  let message ← command_dict.lookup "message"
  let role ← message.lookup "role"
  let contents ← message.lookup "content"
  Multimodal.loadContent (Multimodal role) contents

/-- IterateHtml.__init__ (command.py 757-798).  uuid_hex stands for
str(uuid.uuid4()).replace("-", ""): a fresh value on every construction,
passed in explicitly here. -/
def IterateHtml (uuid_hex : String)
    (iterate_limit save_html save_node save_full_page_image
     pause_time starting_snapshot : PyVal) (snapshot_name : String) : Cmd :=
  let folder := snapshot_name ++ "_" ++ ("bench_" ++ uuid_hex)
  BrowserCommand "iterate_html" (pyDict
    [("iter_limit", iterate_limit),
     ("pause_time", pause_time),
     ("starting_snapshot", starting_snapshot),
     ("snapshot_name", .str folder),
     ("save_html", save_html),
     ("save_node", save_node),
     ("save_full_page_image", save_full_page_image)])

/-- IterateHtml.init_from_dict (command.py 837-853).  The source reads the
keys at the TOP level of command_dict (not under "params") and the first
key it reads is the misspelled "iter_limt".  The constructor then derives
a fresh uuid-suffixed folder name from snapshot_name. -/
def IterateHtml.init_from_dict (uuid_hex : String) (command_dict : PyVal) :
    Except PyErr Cmd := do
  let il ← command_dict.lookup "iter_limt"
  let sh ← command_dict.lookup "save_html"
  let sn ← command_dict.lookup "save_node"
  let sf ← command_dict.lookup "save_full_page_image"
  let pt ← command_dict.lookup "pause_time"
  let ss ← command_dict.lookup "starting_snapshot"
  let snm ← command_dict.lookup "snapshot_name"
  match snm with
  | .str s => pure (IterateHtml uuid_hex il sh sn sf pt ss s)
  | _ => .error (.typeError "snapshot_name must be a string")

instance instDecEqExcept {ε α : Type} [DecidableEq ε] [DecidableEq α] :
    DecidableEq (Except ε α)
  | .error e, .error f => decidable_of_iff (e = f) (by simp)
  | .error _, .ok _ => .isFalse (by simp)
  | .ok _, .error _ => .isFalse (by simp)
  | .ok a, .ok b => decidable_of_iff (a = b) (by simp)

/-!
Canonical wire shapes: the exact dictionary shape produced by the
to_dict of each variant (the well-formed wire documents of the round-trip
claim).  Keys appear in the insertion order of the Python constructors,
so structural equality on these shapes coincides with Python dict
equality.
-/

/-- Canonical Navigate wire dict. -/
def canonNavigate (d : PyVal) : Prop :=
  ∃ u, d = pyDict [("command_name", .str "open_web_page"),
                   ("params", pyDict [("url", u)])]

/-- Canonical FullPageScreenshot wire dict. -/
def canonFullPageScreenshot (d : PyVal) : Prop :=
  ∃ q n s, d = pyDict [("command_name", .str "full_page_screenshot"),
    ("params", pyDict [("quality", q), ("name", n), ("snapshot_name", s)])]

/-- Canonical ElementScreenShot wire dict. -/
def canonElementScreenShot (d : PyVal) : Prop :=
  ∃ sc sel n s, d = pyDict [("command_name", .str "element_screenshot"),
    ("params", pyDict [("scale", sc), ("name", n), ("selector", sel),
                       ("snapshot_name", s)])]

/-- Canonical CollectNodes wire dict. -/
def canonCollectNodes (d : PyVal) : Prop :=
  ∃ sel s w, d = pyDict [("command_name", .str "collect_nodes"),
    ("params", pyDict [("wait_ready", w), ("selector", sel),
                       ("snapshot_name", s)])]

/-- Canonical SaveHtml wire dict. -/
def canonSaveHtml (d : PyVal) : Prop :=
  ∃ s, d = pyDict [("command_name", .str "save_html"),
                   ("params", pyDict [("snapshot_name", s)])]

/-- Canonical Sleep wire dict. -/
def canonSleep (d : PyVal) : Prop :=
  ∃ sec, d = pyDict [("command_name", .str "sleep"),
                     ("params", pyDict [("seconds", sec)])]

/-- Canonical Click wire dict. -/
def canonClick (d : PyVal) : Prop :=
  ∃ sel q, d = pyDict [("command_name", .str "click"),
    ("params", pyDict [("selector", sel), ("query_type", q)])]

/-- Canonical Standard wire dict. -/
def canonStandard (d : PyVal) : Prop :=
  ∃ r c, d = pyDict [("message_type", .str "standard"),
    ("message", pyDict [("role", r), ("content", c)])]

/-- Canonical Assistant wire dict. -/
def canonAssistant (d : PyVal) : Prop :=
  ∃ r c, d = pyDict [("message_type", .str "assistant"),
    ("message", pyDict [("role", r), ("content", c)])]

/-- Canonical Tool wire dict. -/
def canonTool (d : PyVal) : Prop :=
  ∃ m, d = pyDict [("message_type", .str "tool"), ("message", m)]

/-- Canonical multimodal content item: the shapes add_content produces. -/
def canonContentItem (c : PyVal) : Prop :=
  (∃ t, c = pyDict [("type", .str "text"), ("text", t)]) ∨
  (∃ u, c = pyDict [("type", .str "image_url"),
                    ("image_url", pyDict [("url", u)])])

/-- Canonical Multimodal wire dict. -/
def canonMultimodal (d : PyVal) : Prop :=
  ∃ r xs, (∀ c ∈ xs, canonContentItem c) ∧
    d = pyDict [("message_type", .str "multimodal"),
      ("message", pyDict [("role", r), ("content", pyList xs)])]

/-- Canonical IterateHtml wire dict (to_dict output; snapshot_name is the
uuid-suffixed folder string the constructor generated). -/
def canonIterateHtml (d : PyVal) : Prop :=
  ∃ il pt ss sh sn sf, ∃ folder : String,
    d = pyDict [("command_name", .str "iterate_html"),
      ("params", pyDict
        [("iter_limit", il), ("pause_time", pt), ("starting_snapshot", ss),
         ("snapshot_name", .str folder), ("save_html", sh),
         ("save_node", sn), ("save_full_page_image", sf)])]

/-- A concrete IterateHtml wire document, produced by to_dict of an
IterateHtml command built with an explicit uuid. -/
def iterateHtmlWireExample : PyVal :=
  (IterateHtml "aaaabbbb" (.int 3) (.bool true) (.bool false) (.bool false)
    (.int 5000) (.int 0) "snapshot").to_dict

/-!
Operations (src/agent/config/operation.py).
-/

/-- Operation.__init__ (operation.py 30-59) plus the underlying list
contents (Operation subclasses Python list; items models that list). -/
structure Operation where
  op_type : String
  timeout : Option Int
  session_name : String
  live : Bool
  items : List Cmd
deriving DecidableEq

/-- Operation.append (operation.py 61-69): raises TypeError on a family
mismatch (leaving the list untouched, since the raise precedes the
super().append call), otherwise appends at the end. -/
def Operation.append (self : Operation) (command : Cmd) : Except PyErr Operation :=
  if command.command_type ≠ self.op_type then
    .error (.typeError ("cannot append command of type " ++ command.command_type))
  else
    .ok { self with items := self.items ++ [command] }

/-- Operation.get_settings (operation.py 71-77): the Python guard is
`if self.timeout`, i.e. truthiness, so both None and 0 yield the empty
settings dict. -/
def Operation.get_settings (self : Operation) : List (String × PyVal) :=
  match self.timeout with
  | some n => if n ≠ 0 then [("timeout", .int n)] else []
  | none => []

/-- Operation.to_dict (operation.py 79-91).  get_settings is virtually
dispatched in Python, so the subclass settings list is a parameter here;
each caller below passes its own get_settings. -/
def Operation.to_dict_with (self : Operation) (settings : List (String × PyVal)) : PyVal :=
  pyDict [("type", .str self.op_type),
          ("settings", pyDict settings),
          ("command_list", pyList (self.items.map Cmd.to_dict))]

/-- A _BrowserOperations object (operation.py 193-222): the base Operation
fields plus the headless flag. -/
structure BrowserOperations where
  base : Operation
  headless : Bool
deriving DecidableEq

/-- _BrowserOperations.__init__ (operation.py 198-213): op_type browser,
empty list. -/
def mkBrowserOperations (session_name : String) (headless : Bool)
    (timeout : Option Int) (live : Bool) : BrowserOperations :=
  ⟨⟨"browser", timeout, session_name, live, []⟩, headless⟩

/-- _BrowserOperations.get_settings (operation.py 215-222): takes the base
settings and sets settings["headless"]. -/
def BrowserOperations.get_settings (self : BrowserOperations) : List (String × PyVal) :=
  dictSet self.base.get_settings "headless" (.bool self.headless)

/-- The inherited append on a _BrowserOperations object. -/
def BrowserOperations.append (self : BrowserOperations) (command : Cmd) :
    Except PyErr BrowserOperations :=
  (self.base.append command).map (fun b => { self with base := b })

/-- Operation.to_dict as invoked on a _BrowserOperations object (virtual
get_settings). -/
def BrowserOperations.to_dict (self : BrowserOperations) : PyVal :=
  self.base.to_dict_with self.get_settings

/-- The browser operation of the serialization scenario: headless=False,
no timeout, then Navigate, Sleep, SaveHtml appended in that order. -/
def scenarioBrowserOp : Except PyErr BrowserOperations := do
  let o := mkBrowserOperations "sess" false none false
  let o ← o.append (Navigate (.str "https://example.com"))
  let o ← o.append (Sleep (.int 2))
  let o ← o.append (SaveHtml (.str "s1"))
  pure o

/-!
Paths (src/agent/miscellaneous/paths.py) and the file names used by the
live-session protocol.  os.path.join of relative components is modelled
as interleaving "/" separators; the environment variable BENCHAI_SAVEDIR
and the expansion of "~" enter as explicit parameters env and home.
-/

/-- os.path.join on relative components: interleaves "/" separators. -/
def pathJoin : List String → String
  | [] => ""
  | [x] => x
  | x :: y :: ys => x ++ "/" ++ pathJoin (y :: ys)

/-- get_save_path (paths.py 4-14): $BENCHAI_SAVEDIR if set, else
~/.cache/benchai, with agent/sessions appended. -/
def get_save_path (env : Option String) (home : String) : String :=
  let save_path :=
    match env with
    | some p => p
    | none => pathJoin [home, ".cache", "benchai"]
  pathJoin [save_path, "agent", "sessions"]

/-- get_live_session_path (paths.py 17-23). -/
def get_live_session_path (env : Option String) (home : String)
    (session_name : String) : String :=
  pathJoin [get_save_path env home, session_name]

/-- A file name in a live-session commands directory.  The sources build
these names as str(uuid) (+ optional "exit") + a literal suffix; dir,
base and that literal suffix are kept apart so the .tmp / .json
distinction is explicit.  The observable path is dir ++ "/" ++ base ++
ext. -/
structure FsPath where
  dir : String
  base : String
  ext : String
deriving DecidableEq

/-- The observable file name of an FsPath. -/
def FsPath.full (p : FsPath) : String := p.dir ++ "/" ++ p.base ++ p.ext

/-- A file-system side effect performed by the live command protocol. -/
inductive FsEvent where
  | write (p : FsPath)
  | rename (src dst : FsPath)
deriving DecidableEq

/-- Bool test that string s ends with suf. -/
def strEnds (s suf : String) : Bool := List.isSuffixOf suf.data s.data

/-- Every write in the trace targets a name ending in ".tmp". -/
def writesEndInTmp : List FsEvent → Bool
  | [] => true
  | .write p :: rest => strEnds (p.base ++ p.ext) ".tmp" && writesEndInTmp rest
  | .rename _ _ :: rest => writesEndInTmp rest

/-- Every event that produces a name ending in ".json" is a rename whose
source ends in ".tmp" and was written earlier in the trace (accumulated
in written). -/
def jsonOnlyByRename (written : List FsPath) : List FsEvent → Bool
  | [] => true
  | .write p :: rest =>
      !(strEnds (p.base ++ p.ext) ".json") && jsonOnlyByRename (p :: written) rest
  | .rename src dst :: rest =>
      strEnds (src.base ++ src.ext) ".tmp" &&
      strEnds (dst.base ++ dst.ext) ".json" &&
      written.contains src && jsonOnlyByRename written rest

/-- The atomic-publish discipline of the live protocol: bodies are only
written under .tmp names, and .json names appear only as rename targets
of previously written .tmp files. -/
def atomicPublish (trace : List FsEvent) : Bool :=
  writesEndInTmp trace && jsonOnlyByRename [] trace

/-!
Live-session state and the three command-submitting functions
(operation.py _process and _LLMOperations.execute, session.py
end_live_session).  The live directory tree enters as explicit state:
started models the existence of the commands/ directory (created by the
external agent), exit_txt the existence of exit.txt.  The busy-poll on
responses/<uuid>/success.txt and the read of the agent-written response
happen after the events modelled here and involve only agent-produced
files, so the traces below cover every file this client writes under
commands/.
-/

/-- Existence flags of the live session tree. -/
structure LiveFs where
  started : Bool
  exit_txt : Bool
deriving DecidableEq

/-- Operation._exited (operation.py 114-127); _started (101-112) is the
started flag. -/
def Operation.exited (self_live : Bool) (st : LiveFs) : Except PyErr Bool :=
  if !self_live then
    .error (.invalidSessionError "session is not live, cannot check if session exited")
  else if !st.started then
    .error (.invalidSessionError "session has not started")
  else
    .ok st.exit_txt

/-- Operation._process (operation.py 159-190): non-live operations just
append; live operations fail with ConnectionError once the session has
exited, otherwise write <uuid>.json.tmp into the commands directory and
rename it to <uuid>.json.  The result pairs the outcome with the trace of
file-system writes this call performs. -/
def Operation.process (env : Option String) (home : String) (self : Operation)
    (st : LiveFs) (uid : String) (command : Cmd) :
    Except PyErr Operation × List FsEvent :=
  if !self.live then
    match self.append command with
    | .ok o2 => (.ok o2, [])
    | .error e => (.error e, [])
  else
    match Operation.exited self.live st with
    | .error e => (.error e, [])
    | .ok true => (.error (.connectionError "session has already exited"), [])
    | .ok false =>
      let cd := pathJoin [get_live_session_path env home self.session_name, "commands"]
      (.ok self,
       [.write ⟨cd, uid, ".json.tmp"⟩,
        .rename ⟨cd, uid, ".json.tmp"⟩ ⟨cd, uid, ".json"⟩])

/-- _LLMOperations.execute (operation.py 418-445): live-only; fails with
ConnectionError once the session has exited, otherwise writes the
operation document to <uuid>.json.tmp and renames it to <uuid>.json,
then polls for and reads the agent-produced response (outside this
model). -/
def LLMOperations.execute (env : Option String) (home : String) (self : Operation)
    (st : LiveFs) (uid : String) : Except PyErr Unit × List FsEvent :=
  if !self.live then (.error (.typeError "not a live session"), [])
  else
    match Operation.exited self.live st with
    | .error e => (.error e, [])
    | .ok true => (.error (.connectionError "session has already exited"), [])
    | .ok false =>
      let cd := pathJoin [get_live_session_path env home self.session_name, "commands"]
      (.ok (),
       [.write ⟨cd, uid, ".json.tmp"⟩,
        .rename ⟨cd, uid, ".json.tmp"⟩ ⟨cd, uid, ".json"⟩])

/-- Session.exited (session.py 97-109): same checks as Operation._exited. -/
def Session.exited (live : Bool) (st : LiveFs) : Except PyErr Bool :=
  if !live then
    .error (.invalidSessionError "session is not live, cannot check if session exited")
  else if !st.started then
    .error (.invalidSessionError "session has not started")
  else
    .ok st.exit_txt

/-- Session.end_live_session (session.py 124-153): returns early when the
exit marker already exists; otherwise writes str(uuid4())+"exit.json.tmp"
and renames it to str(uuid4())+"exit.json" — note the two distinct fresh
uuids uid1 and uid2 in the source.  files is the set of .json files in
commands/; the net effect of write-then-rename is one new .json file. -/
def Session.end_live_session (env : Option String) (home : String) (s_id : String)
    (live : Bool) (st : LiveFs) (files : List FsPath) (uid1 uid2 : String) :
    Except PyErr (List FsPath) × List FsEvent :=
  if !live then (.error (.invalidSessionError "cannot end a non live session"), [])
  else
    match Session.exited live st with
    | .error e => (.error e, [])
    | .ok true => (.ok files, [])
    | .ok false =>
      let cd := pathJoin [get_live_session_path env home s_id, "commands"]
      (.ok (files ++ [⟨cd, uid2 ++ "exit", ".json"⟩]),
       [.write ⟨cd, uid1 ++ "exit", ".json.tmp"⟩,
        .rename ⟨cd, uid1 ++ "exit", ".json.tmp"⟩ ⟨cd, uid2 ++ "exit", ".json"⟩])

/-- Counts the exit-command files (base ending in exit, extension .json)
in a commands directory listing. -/
def exitCommandCount (files : List FsPath) : Nat :=
  (files.filter (fun p => strEnds p.base "exit" && p.ext = ".json")).length

/-- Session.__init__ validation (session.py 21-59).  Python // is floor
division (Int.fdiv); the source floors session_lifetime to whole seconds,
multiplies back, and compares that against command_lifetime, then stores
the raw arguments. -/
def Session.init (session_lifetime command_lifetime : Int) :
    Except PyErr (Int × Int) :=
  if command_lifetime < 0 then
    .error (.valueError "command_lifetime must be greater than 0ms, since command will never run")
  else if (Int.fdiv session_lifetime 1000) * 1000 < command_lifetime then
    .error (.valueError "command_lifetime cannot be longer than session lifetime")
  else
    .ok (session_lifetime, command_lifetime)

/-- Two end_live_session calls on a concrete live started session whose
exit marker never appears (the external agent has not written exit.txt
between the calls): the resulting commands-directory contents. -/
def endLiveTwiceNoMarker : Except PyErr (List FsPath) :=
  match (Session.end_live_session (some "/root") "/home/u" "sid" true
      ⟨true, false⟩ [] "u1" "u2").1 with
  | .ok fs =>
      (Session.end_live_session (some "/root") "/home/u" "sid" true
        ⟨true, false⟩ fs "u3" "u4").1
  | .error e => .error e

/-!
IterateHtml snapshot indexing (command.py 800-835) and the file_path
properties (command.py 401-419, 475-485, 542-551).  The ./resources/
snapshots directory listing enters as an Option (List String): none when
the directory does not exist.
-/

/-- Bool test that string s starts with pre. -/
def strStarts (s pre : String) : Bool := List.isPrefixOf pre.data s.data

/-- IterateHtml._collect_resources (command.py 809-811): the snapshot
directories whose name starts with the folder name stem of this command. -/
def collect_resources (folderPref : String) (dir_list : List String) : List String :=
  dir_list.filter (fun x => strStarts x folderPref)

/-- IterateHtml.__len__ (command.py 813-820): NotADirectoryError when
./resources/snapshots does not exist, else the number of matching
snapshot directories. -/
def IterateHtml.length (folderPref : String) (snapshots : Option (List String)) :
    Except PyErr Int :=
  match snapshots with
  | none => .error (.notADirectoryError "snapshots have not been saved")
  | some l => .ok ((collect_resources folderPref l).length : Int)

/-- Python list indexing list[i]: non-negative indices below the length
return the element, indices in [-len, -1] return the element at
len + i, everything else raises IndexError. -/
def pyListGet (xs : List String) (i : Int) : Except PyErr String :=
  if 0 ≤ i then
    match xs.get? i.toNat with
    | some v => .ok v
    | none => .error (.indexError "list index out of range")
  else if (xs.length : Int) + i < 0 then
    .error (.indexError "list index out of range")
  else
    match xs.get? ((xs.length : Int) + i).toNat with
    | some v => .ok v
    | none => .error (.indexError "list index out of range")

/-- IterateHtml.__getitem__ (command.py 822-835): evaluates len(self)
first (propagating NotADirectoryError when the snapshots directory is
missing), keeps the dead `len(self) < 0` guard of the source, then
indexes the collected resource list with Python list semantics. -/
def IterateHtml.getitem (folderPref : String) (snapshots : Option (List String))
    (item : Int) : Except PyErr String :=
  match snapshots with
  | none => .error (.notADirectoryError "snapshots have not been saved")
  | some l =>
    if ((collect_resources folderPref l).length : Int) < 0 then
      .error (.notADirectoryError "snapshots have not been saved")
    else
      pyListGet (collect_resources folderPref l) item

/-!
File paths of the file-producing browser commands (command.py).
-/

/-- BrowserFile.file_path (command.py 401-410). -/
def BrowserFile.file_path (snapshot_name file_name : String) : String :=
  pathJoin ["./resources", "snapshots", snapshot_name, file_name]

/-- FullPageScreenshot.file_path override (command.py 475-485). -/
def FullPageScreenshot.file_path (snapshot_name file_name : String) : String :=
  pathJoin ["./resources", "snapshots", snapshot_name, "images", file_name]

/-- ElementScreenShot.file_path override (command.py 542-551). -/
def ElementScreenShot.file_path (snapshot_name file_name : String) : String :=
  pathJoin ["./resources", "snapshots", snapshot_name, "images", file_name]

/-- SaveHtml inherits BrowserFile.file_path with file name body.txt
(command.py 628-641). -/
def SaveHtml.file_path (snapshot_name : String) : String :=
  BrowserFile.file_path snapshot_name "body.txt"

/-!
Lemmas and theorems.  Helper lemmas come first; the theorem of each
claim is stated over the definitions above, with its witness or
counterexample alongside.
-/

/-- Loading a canonical content list with Multimodal.loadContent appends
exactly that list to the state. -/
lemma multimodal_loadContent_canonical (xs : List PyVal) :
    ∀ m : MultimodalState, (∀ c ∈ xs, canonContentItem c) →
      Multimodal.loadContent m (pyList xs) = .ok { m with content := m.content ++ xs } := by
  induction xs with
  | nil =>
    intro m _
    simp [pyList, Multimodal.loadContent]
  | cons c rest ih =>
    intro m h
    have hc : canonContentItem c := h c (List.mem_cons_self c rest)
    have hrest : ∀ x ∈ rest, canonContentItem x := fun x hx => h x (List.mem_cons_of_mem c hx)
    rcases hc with ⟨t, rfl⟩ | ⟨u, rfl⟩
    · rw [show Multimodal.loadContent m
          (pyList (pyDict [("type", .str "text"), ("text", t)] :: rest)) =
          Multimodal.loadContent
            { m with content := m.content ++ [pyDict [("type", .str "text"), ("text", t)]] }
            (pyList rest) from rfl]
      rw [ih _ hrest]
      simp
    · rw [show Multimodal.loadContent m
          (pyList (pyDict [("type", .str "image_url"),
            ("image_url", pyDict [("url", u)])] :: rest)) =
          Multimodal.loadContent
            { m with content := m.content ++ [pyDict [("type", .str "image_url"),
              ("image_url", pyDict [("url", u)])]] }
            (pyList rest) from rfl]
      rw [ih _ hrest]
      simp

/-- C1 counterexample: the round-trip claim fails on the IterateHtml
variant.  At the concrete canonical wire dict iterateHtmlWireExample
(a to_dict output), init_from_dict raises KeyError("iter_limt") — the
source reads a misspelled key at the top level of the dict — so
to_dict(init_from_dict(d)) is not d. -/
theorem roundtrip_iterate_html_fails :
    canonIterateHtml iterateHtmlWireExample ∧
    (IterateHtml.init_from_dict "ccccdddd" iterateHtmlWireExample).map Cmd.to_dict ≠
      .ok iterateHtmlWireExample ∧
    IterateHtml.init_from_dict "ccccdddd" iterateHtmlWireExample =
      .error (.keyError "iter_limt") :=
  ⟨⟨.int 3, .int 5000, .int 0, .bool true, .bool false, .bool false,
    "snapshot_bench_aaaabbbb", by decide⟩, by decide, by decide⟩

/-- C1 (amended): for every Command variant with an init_from_dict
constructor except IterateHtml, reconstructing from a canonical wire dict
and re-serializing gives back the same dict; IterateHtml.init_from_dict
instead raises KeyError("iter_limt") on every canonical IterateHtml wire
dict (it reads a misspelled top-level key), so that variant never
round-trips. -/
theorem roundtrip_init_from_dict_to_dict :
    (∀ d, canonNavigate d → (Navigate.init_from_dict d).map Cmd.to_dict = .ok d) ∧
    (∀ d, canonFullPageScreenshot d →
      (FullPageScreenshot.init_from_dict d).map Cmd.to_dict = .ok d) ∧
    (∀ d, canonElementScreenShot d →
      (ElementScreenShot.init_from_dict d).map Cmd.to_dict = .ok d) ∧
    (∀ d, canonCollectNodes d →
      (CollectNodes.init_from_dict d).map Cmd.to_dict = .ok d) ∧
    (∀ d, canonSaveHtml d → (SaveHtml.init_from_dict d).map Cmd.to_dict = .ok d) ∧
    (∀ d, canonSleep d → (Sleep.init_from_dict d).map Cmd.to_dict = .ok d) ∧
    (∀ d, canonClick d → (Click.init_from_dict d).map Cmd.to_dict = .ok d) ∧
    (∀ d, canonStandard d → (Standard.init_from_dict d).map Cmd.to_dict = .ok d) ∧
    (∀ d, canonAssistant d → (Assistant.init_from_dict d).map Cmd.to_dict = .ok d) ∧
    (∀ d, canonTool d → (Tool.init_from_dict d).map Cmd.to_dict = .ok d) ∧
    (∀ d, canonMultimodal d →
      (Multimodal.init_from_dict d).map (fun m => m.toCmd.to_dict) = .ok d) ∧
    (∀ uuid_hex d, canonIterateHtml d →
      IterateHtml.init_from_dict uuid_hex d = .error (.keyError "iter_limt")) := by
  refine ⟨?_, ?_, ?_, ?_, ?_, ?_, ?_, ?_, ?_, ?_, ?_, ?_⟩
  · rintro d ⟨u, rfl⟩; rfl
  · rintro d ⟨q, n, s, rfl⟩; rfl
  · rintro d ⟨sc, sel, n, s, rfl⟩; rfl
  · rintro d ⟨sel, s, w, rfl⟩; rfl
  · rintro d ⟨s, rfl⟩; rfl
  · rintro d ⟨sec, rfl⟩; rfl
  · rintro d ⟨sel, q, rfl⟩; rfl
  · rintro d ⟨r, c, rfl⟩; rfl
  · rintro d ⟨r, c, rfl⟩; rfl
  · rintro d ⟨m, rfl⟩; rfl
  · rintro d ⟨r, xs, hxs, rfl⟩
    rw [show Multimodal.init_from_dict (pyDict [("message_type", .str "multimodal"),
        ("message", pyDict [("role", r), ("content", pyList xs)])]) =
        Multimodal.loadContent (Multimodal r) (pyList xs) from rfl]
    rw [multimodal_loadContent_canonical xs (Multimodal r) hxs]
    simp only [Multimodal, MultimodalState.toCmd, LLMCommand, Cmd.to_dict, pyDict]
    rfl
  · rintro uuid_hex d ⟨il, pt, ss, sh, sn, sf, folder, rfl⟩
    rfl

/-- Witness for roundtrip_init_from_dict_to_dict: each conjunct applied at
a concrete canonical wire dict. -/
theorem roundtrip_init_from_dict_to_dict_witness :
    (Navigate.init_from_dict (pyDict [("command_name", .str "open_web_page"),
        ("params", pyDict [("url", .str "https://example.com")])])).map Cmd.to_dict =
      .ok (pyDict [("command_name", .str "open_web_page"),
        ("params", pyDict [("url", .str "https://example.com")])]) ∧
    (Sleep.init_from_dict (pyDict [("command_name", .str "sleep"),
        ("params", pyDict [("seconds", .int 2)])])).map Cmd.to_dict =
      .ok (pyDict [("command_name", .str "sleep"),
        ("params", pyDict [("seconds", .int 2)])]) ∧
    (Multimodal.init_from_dict (pyDict [("message_type", .str "multimodal"),
        ("message", pyDict [("role", .str "user"),
          ("content", pyList [pyDict [("type", .str "text"), ("text", .str "hi")]])])])).map
        (fun m => m.toCmd.to_dict) =
      .ok (pyDict [("message_type", .str "multimodal"),
        ("message", pyDict [("role", .str "user"),
          ("content", pyList [pyDict [("type", .str "text"), ("text", .str "hi")]])])]) ∧
    IterateHtml.init_from_dict "eeee" iterateHtmlWireExample =
      .error (.keyError "iter_limt") :=
  ⟨roundtrip_init_from_dict_to_dict.1 _ ⟨.str "https://example.com", rfl⟩,
   roundtrip_init_from_dict_to_dict.2.2.2.2.2.1 _ ⟨.int 2, rfl⟩,
   roundtrip_init_from_dict_to_dict.2.2.2.2.2.2.2.2.2.2.1 _
     ⟨.str "user", [pyDict [("type", .str "text"), ("text", .str "hi")]],
      by intro c hc; simp at hc; subst hc; exact .inl ⟨.str "hi", rfl⟩, rfl⟩,
   roundtrip_init_from_dict_to_dict.2.2.2.2.2.2.2.2.2.2.2 "eeee" _
     ⟨.int 3, .int 5000, .int 0, .bool true, .bool false, .bool false,
      "snapshot_bench_aaaabbbb", by decide⟩⟩

/-- C2: serializing a browser Operation holding Navigate, Sleep(2),
SaveHtml("s1") in insertion order, built with headless=False and no
timeout, yields exactly the claimed wire dictionary. -/
theorem browser_operation_scenario_to_dict :
    scenarioBrowserOp.map BrowserOperations.to_dict =
      .ok (pyDict
        [("type", .str "browser"),
         ("settings", pyDict [("headless", .bool false)]),
         ("command_list", pyList
           [pyDict [("command_name", .str "open_web_page"),
                    ("params", pyDict [("url", .str "https://example.com")])],
            pyDict [("command_name", .str "sleep"),
                    ("params", pyDict [("seconds", .int 2)])],
            pyDict [("command_name", .str "save_html"),
                    ("params", pyDict [("snapshot_name", .str "s1")])]])]) := by
  decide

/-- C3: appending a command whose family differs from the operation type
raises TypeError and produces no modified operation (the list is
unchanged); appending a matching command succeeds and puts it at the
end. -/
theorem append_type_guard (o : Operation) (c : Cmd) :
    (c.command_type ≠ o.op_type →
      o.append c = .error (.typeError ("cannot append command of type " ++ c.command_type))) ∧
    (c.command_type = o.op_type →
      o.append c = .ok { o with items := o.items ++ [c] }) := by
  constructor
  · intro h
    simp [Operation.append, h]
  · intro h
    simp [Operation.append, h]

/-- Witness for append_type_guard: an llm command rejected by a browser
operation, a browser command appended at the end. -/
theorem append_type_guard_witness :
    Operation.append ⟨"browser", none, "sess", false, []⟩
        (Standard (.str "user") (.str "hi")) =
      .error (.typeError "cannot append command of type llm") ∧
    Operation.append ⟨"browser", none, "sess", false, []⟩ (Navigate (.str "u")) =
      .ok ⟨"browser", none, "sess", false, [Navigate (.str "u")]⟩ :=
  ⟨(append_type_guard ⟨"browser", none, "sess", false, []⟩
      (Standard (.str "user") (.str "hi"))).1 (by decide),
   (append_type_guard ⟨"browser", none, "sess", false, []⟩
      (Navigate (.str "u"))).2 (by decide)⟩

/-- C10: an explicitly supplied timeout of 0 is dropped from the settings
(the guard tests Python truthiness, not only None), so the serialized
settings and the to_dict wire document of a browser operation carry no
timeout key, exactly as with timeout=None. -/
theorem get_settings_omits_zero_timeout (op : Operation) (h : op.timeout = some 0) :
    op.get_settings = [] ∧
    op.get_settings = Operation.get_settings { op with timeout := none } ∧
    ∀ hl : Bool,
      (pyDict (BrowserOperations.get_settings ⟨op, hl⟩)).hasKey "timeout" = false ∧
      (BrowserOperations.to_dict ⟨op, hl⟩).lookup "settings" =
        .ok (pyDict [("headless", .bool hl)]) := by
  have h1 : op.get_settings = [] := by
    simp [Operation.get_settings, h]
  refine ⟨h1, ?_, ?_⟩
  · rw [h1]
    simp [Operation.get_settings]
  · intro hl
    constructor
    · simp [BrowserOperations.get_settings, h1, dictSet, pyDict, PyVal.hasKey]
    · simp [BrowserOperations.to_dict, Operation.to_dict_with,
        BrowserOperations.get_settings, h1, dictSet, pyDict, PyVal.lookup]

/-- Appending on the left preserves a string suffix. -/
lemma strEnds_append_of (a b suf : String) (h : strEnds b suf = true) :
    strEnds (a ++ b) suf = true := by
  simp only [strEnds, List.isSuffixOf_iff_suffix, String.data_append] at h ⊢
  exact h.trans (List.suffix_append a.data b.data)

/-- A suffix no longer than the right part of an append is a suffix of
the whole iff it is a suffix of the right part. -/
lemma suffix_append_right_iff (l₁ l₂ t : List Char) (hlen : t.length ≤ l₂.length) :
    t <:+ l₁ ++ l₂ ↔ t <:+ l₂ := by
  constructor
  · intro h
    rcases h with ⟨u, hu⟩
    refine ⟨u.drop l₁.length, ?_⟩
    have hdrop : (u ++ t).drop l₁.length = (l₁ ++ l₂).drop l₁.length := by rw [hu]
    rw [List.drop_append_of_le_length, List.drop_left] at hdrop
    · exact hdrop
    · have hlen2 : (u ++ t).length = (l₁ ++ l₂).length := by rw [hu]
      simp only [List.length_append] at hlen2
      omega
  · intro h
    exact h.trans (List.suffix_append l₁ l₂)

/-- Testing a short suffix against an append reduces to the right part. -/
lemma strEnds_append_right (a b suf : String) (hlen : suf.length ≤ b.length) :
    strEnds (a ++ b) suf = strEnds b suf := by
  rw [Bool.eq_iff_iff]
  simp only [strEnds, List.isSuffixOf_iff_suffix, String.data_append]
  exact suffix_append_right_iff a.data b.data suf.data hlen

/-- Regluing a string concatenation around a literal equation. -/
lemma str_glue (a b c d : String) (h : b ++ c = d) : a ++ b ++ c = a ++ d := by
  rw [String.append_assoc, h]

/-- The write-tmp-then-rename trace of one live command submission
satisfies the atomic-publish discipline, whatever the directory and
uuid-derived base names are. -/
lemma atomicPublish_submit (cd b1 b2 : String) :
    atomicPublish [.write ⟨cd, b1, ".json.tmp"⟩,
      .rename ⟨cd, b1, ".json.tmp"⟩ ⟨cd, b2, ".json"⟩] = true := by
  have hw : strEnds (b1 ++ ".json.tmp") ".tmp" = true :=
    strEnds_append_of _ _ _ (by decide)
  have hj : strEnds (b1 ++ ".json.tmp") ".json" = false := by
    rw [strEnds_append_right b1 ".json.tmp" ".json" (by decide)]
    decide
  have hd : strEnds (b2 ++ ".json") ".json" = true :=
    strEnds_append_of _ _ _ (by decide)
  simp [atomicPublish, writesEndInTmp, jsonOnlyByRename, hw, hj, hd]

/-- C4: every live submission path (per-command _process, LLM execute,
and the end_live_session exit signal) only ever writes bodies under
names ending in .tmp, and a name ending in .json appears only as the
rename target of a previously written .tmp file, for every session
state, environment and uuid choice; so no incompletely written file is
observable under a .json name. -/
theorem live_command_publish_atomic (env : Option String) (home : String)
    (op : Operation) (st : LiveFs) (uid : String) (command : Cmd)
    (s_id : String) (live : Bool) (files : List FsPath) (u1 u2 : String) :
    atomicPublish (Operation.process env home op st uid command).2 = true ∧
    atomicPublish (LLMOperations.execute env home op st uid).2 = true ∧
    atomicPublish (Session.end_live_session env home s_id live st files u1 u2).2 = true := by
  refine ⟨?_, ?_, ?_⟩
  · cases hl : op.live
    · cases ha : op.append command <;>
        simp [Operation.process, hl, ha, atomicPublish, writesEndInTmp, jsonOnlyByRename]
    · cases hs : st.started
      · simp [Operation.process, Operation.exited, hl, hs, atomicPublish,
          writesEndInTmp, jsonOnlyByRename]
      · cases hx : st.exit_txt
        · simp only [Operation.process, Operation.exited, hl, hs, hx, Bool.not_true,
            Bool.false_eq_true, if_false, Bool.not_false, if_true]
          exact atomicPublish_submit _ uid uid
        · simp [Operation.process, Operation.exited, hl, hs, hx, atomicPublish,
            writesEndInTmp, jsonOnlyByRename]
  · cases hl : op.live
    · simp [LLMOperations.execute, hl, atomicPublish, writesEndInTmp, jsonOnlyByRename]
    · cases hs : st.started
      · simp [LLMOperations.execute, Operation.exited, hl, hs, atomicPublish,
          writesEndInTmp, jsonOnlyByRename]
      · cases hx : st.exit_txt
        · simp only [LLMOperations.execute, Operation.exited, hl, hs, hx, Bool.not_true,
            Bool.false_eq_true, if_false, Bool.not_false, if_true]
          exact atomicPublish_submit _ uid uid
        · simp [LLMOperations.execute, Operation.exited, hl, hs, hx, atomicPublish,
            writesEndInTmp, jsonOnlyByRename]
  · cases live
    · simp [Session.end_live_session, atomicPublish, writesEndInTmp, jsonOnlyByRename]
    · cases hs : st.started
      · simp [Session.end_live_session, Session.exited, hs, atomicPublish,
          writesEndInTmp, jsonOnlyByRename]
      · cases hx : st.exit_txt
        · simp only [Session.end_live_session, Session.exited, hs, hx, Bool.not_true,
            Bool.false_eq_true, if_false, Bool.not_false, if_true]
          exact atomicPublish_submit _ (u1 ++ "exit") (u2 ++ "exit")
        · simp [Session.end_live_session, Session.exited, hs, hx, atomicPublish,
            writesEndInTmp, jsonOnlyByRename]

/-- C6: once the exit marker exists in a started live session, both
command-submission paths fail immediately with ConnectionError("session
has already exited") and write nothing at all to the commands
directory. -/
theorem exited_session_rejects_commands (env : Option String) (home : String)
    (op : Operation) (st : LiveFs) (uid : String) (command : Cmd)
    (hlive : op.live = true) (hstart : st.started = true) (hexit : st.exit_txt = true) :
    Operation.process env home op st uid command =
      (.error (.connectionError "session has already exited"), []) ∧
    LLMOperations.execute env home op st uid =
      (.error (.connectionError "session has already exited"), []) := by
  constructor
  · simp [Operation.process, Operation.exited, hlive, hstart, hexit]
  · simp [LLMOperations.execute, Operation.exited, hlive, hstart, hexit]

/-- Witness for exited_session_rejects_commands at a concrete live
browser operation whose session has started and exited. -/
theorem exited_session_rejects_commands_witness :
    Operation.process none "/home/u" ⟨"browser", none, "sid", true, []⟩
        ⟨true, true⟩ "u1" (Navigate (.str "https://example.com")) =
      (.error (.connectionError "session has already exited"), []) ∧
    LLMOperations.execute none "/home/u" ⟨"browser", none, "sid", true, []⟩
        ⟨true, true⟩ "u1" =
      (.error (.connectionError "session has already exited"), []) :=
  exited_session_rejects_commands none "/home/u" ⟨"browser", none, "sid", true, []⟩
    ⟨true, true⟩ "u1" (Navigate (.str "https://example.com")) rfl rfl rfl

/-- Appending one exit-command .json file raises the exit-file count by
one, whatever uuid the base name starts with. -/
lemma exitCommandCount_append_exit (files : List FsPath) (cd u : String) :
    exitCommandCount (files ++ [⟨cd, u ++ "exit", ".json"⟩]) =
      exitCommandCount files + 1 := by
  have h : strEnds (u ++ "exit") "exit" = true := strEnds_append_of _ _ _ (by decide)
  simp [exitCommandCount, List.filter_append, h]

/-- C7 counterexample: on a started live session whose exit.txt marker
has not yet been written by the external agent, calling end_live_session
twice succeeds both times but leaves TWO exit-command files in commands/,
refuting "exactly one exit-command file". -/
theorem end_live_session_twice_two_files :
    endLiveTwiceNoMarker.map exitCommandCount = .ok 2 := by decide

/-- C7 (amended): the first end_live_session call on a started,
not-yet-exited live session writes exactly one exit-command file; the
second call does not raise, and it is a no-op leaving exactly that one
file provided the external agent has written the exit.txt marker before
the second call (otherwise it writes a second exit-command file, as the
counterexample shows). -/
theorem end_live_session_second_call_after_marker
    (env : Option String) (home s_id : String) (st : LiveFs) (files : List FsPath)
    (u1 u2 u3 u4 : String)
    (hstart : st.started = true) (hexit : st.exit_txt = false)
    (h0 : exitCommandCount files = 0) :
    (Session.end_live_session env home s_id true st files u1 u2).1 =
      .ok (files ++ [⟨pathJoin [get_live_session_path env home s_id, "commands"],
                     u2 ++ "exit", ".json"⟩]) ∧
    exitCommandCount
        (files ++ [⟨pathJoin [get_live_session_path env home s_id, "commands"],
                    u2 ++ "exit", ".json"⟩]) = 1 ∧
    Session.end_live_session env home s_id true { st with exit_txt := true }
        (files ++ [⟨pathJoin [get_live_session_path env home s_id, "commands"],
                    u2 ++ "exit", ".json"⟩]) u3 u4 =
      (.ok (files ++ [⟨pathJoin [get_live_session_path env home s_id, "commands"],
                      u2 ++ "exit", ".json"⟩]), []) := by
  refine ⟨?_, ?_, ?_⟩
  · simp [Session.end_live_session, Session.exited, hstart, hexit]
  · rw [exitCommandCount_append_exit, h0]
  · simp [Session.end_live_session, Session.exited, hstart]

/-- Witness for end_live_session_second_call_after_marker at a concrete
session. -/
theorem end_live_session_second_call_after_marker_witness :
    (Session.end_live_session (some "/root") "/home/u" "sid" true
        ⟨true, false⟩ [] "u1" "u2").1 =
      .ok ([] ++ [⟨pathJoin [get_live_session_path (some "/root") "/home/u" "sid",
                  "commands"], "u2" ++ "exit", ".json"⟩]) ∧
    exitCommandCount
        ([] ++ [⟨pathJoin [get_live_session_path (some "/root") "/home/u" "sid",
                 "commands"], "u2" ++ "exit", ".json"⟩]) = 1 ∧
    Session.end_live_session (some "/root") "/home/u" "sid" true
        ⟨true, true⟩
        ([] ++ [⟨pathJoin [get_live_session_path (some "/root") "/home/u" "sid",
                 "commands"], "u2" ++ "exit", ".json"⟩]) "u3" "u4" =
      (.ok ([] ++ [⟨pathJoin [get_live_session_path (some "/root") "/home/u" "sid",
                   "commands"], "u2" ++ "exit", ".json"⟩]), []) :=
  end_live_session_second_call_after_marker (some "/root") "/home/u" "sid"
    ⟨true, false⟩ [] "u1" "u2" "u3" "u4" rfl rfl rfl

/-- C8: Session.__init__ does not enforce the documented lifetime bounds:
command_lifetime=0 is accepted (the guard is < 0 although the error
message itself demands strictly more than 0ms), and
command_lifetime=32500 with session_lifetime=32766 is rejected (the code
compares against (session_lifetime // 1000) * 1000 = 32000) although
0 < 32500 and 32500 is at most 32766. -/
theorem session_init_lifetime_validation :
    Session.init 32766 0 = .ok (32766, 0) ∧
    Session.init 32766 32500 =
      .error (.valueError "command_lifetime cannot be longer than session lifetime") := by
  decide

/-- C9 counterexample: with one existing matching snapshot directory,
indexing the IterateHtml builder at -1 returns that directory name
instead of failing, so negative indices are not rejected. -/
theorem iterate_html_negative_index_returns_element :
    IterateHtml.getitem "snapshot_bench_aaaabbbb"
        (some ["snapshot_bench_aaaabbbb-0"]) (-1) =
      .ok "snapshot_bench_aaaabbbb-0" := by decide

/-- C9 (amended): indexing at or beyond the number of matching snapshot
directories raises IndexError, and so does any negative index below
-count; but a negative index in [-count, -1] follows Python list
semantics and returns the element at count+i rather than being
rejected.  With no snapshots directory at all, indexing raises
NotADirectoryError. -/
theorem iterate_html_getitem_bounds (folderPref : String) (l : List String) (i : Int) :
    (((collect_resources folderPref l).length : Int) ≤ i →
      IterateHtml.getitem folderPref (some l) i =
        .error (.indexError "list index out of range")) ∧
    (i < -((collect_resources folderPref l).length : Int) →
      IterateHtml.getitem folderPref (some l) i =
        .error (.indexError "list index out of range")) ∧
    (-((collect_resources folderPref l).length : Int) ≤ i → i < 0 →
      ∃ h : (((collect_resources folderPref l).length : Int) + i).toNat <
          (collect_resources folderPref l).length,
        IterateHtml.getitem folderPref (some l) i =
          .ok ((collect_resources folderPref l).get
            ⟨(((collect_resources folderPref l).length : Int) + i).toNat, h⟩)) ∧
    IterateHtml.getitem folderPref none i =
      .error (.notADirectoryError "snapshots have not been saved") := by
  have hres : ¬(((collect_resources folderPref l).length : Int) < 0) := by omega
  refine ⟨?_, ?_, ?_, rfl⟩
  · intro h
    have h2 : (collect_resources folderPref l).length ≤ i.toNat := by omega
    simp [IterateHtml.getitem, pyListGet, hres, show (0 : Int) ≤ i by omega,
      List.getElem?_eq_none h2]
  · intro h
    simp [IterateHtml.getitem, pyListGet, hres, show ¬((0 : Int) ≤ i) by omega,
      show ((collect_resources folderPref l).length : Int) + i < 0 by omega]
  · intro h1 h2
    have hlt : (((collect_resources folderPref l).length : Int) + i).toNat <
        (collect_resources folderPref l).length := by omega
    refine ⟨hlt, ?_⟩
    simp [IterateHtml.getitem, pyListGet, hres, show ¬((0 : Int) ≤ i) by omega,
      show ¬(((collect_resources folderPref l).length : Int) + i < 0) by omega,
      List.getElem?_eq_getElem hlt, List.get_eq_getElem]

/-- Witness for iterate_html_getitem_bounds at a concrete stem, listing
and indices. -/
theorem iterate_html_getitem_bounds_witness :
    IterateHtml.getitem "p" (some ["p-0", "q-0"]) 1 =
      .error (.indexError "list index out of range") ∧
    IterateHtml.getitem "p" (some ["p-0", "q-0"]) (-2) =
      .error (.indexError "list index out of range") ∧
    IterateHtml.getitem "p" (some ["p-0", "q-0"]) (-1) = .ok "p-0" ∧
    IterateHtml.getitem "p" none 0 =
      .error (.notADirectoryError "snapshots have not been saved") := by
  have h := iterate_html_getitem_bounds "p" ["p-0", "q-0"] 1
  have h2 := iterate_html_getitem_bounds "p" ["p-0", "q-0"] (-2)
  have h3 := iterate_html_getitem_bounds "p" ["p-0", "q-0"] (-1)
  have h4 := iterate_html_getitem_bounds "p" ["p-0", "q-0"] 0
  refine ⟨h.1 (by decide), h2.2.1 (by decide), ?_, h4.2.2.2⟩
  obtain ⟨hb, he⟩ := h3.2.2.1 (by decide) (by decide)
  exact he.trans rfl

/-- C5 counterexample: at session id "sess", snapshot name "snap", file
name "shot.png" and save root "/root" (BENCHAI_SAVEDIR set), the
screenshot and SaveHtml paths are rooted at ./resources and mention no
session id or save root, differing from the claimed
root/agent/sessions/S/snapshots/... paths, even though get_save_path
itself does return root/agent/sessions. -/
theorem file_path_not_session_scoped :
    FullPageScreenshot.file_path "snap" "shot.png" =
      "./resources/snapshots/snap/images/shot.png" ∧
    SaveHtml.file_path "snap" = "./resources/snapshots/snap/body.txt" ∧
    get_save_path (some "/root") "/home/u" = "/root/agent/sessions" ∧
    FullPageScreenshot.file_path "snap" "shot.png" ≠
      "/root/agent/sessions/sess/snapshots/snap/images/shot.png" ∧
    SaveHtml.file_path "snap" ≠
      "/root/agent/sessions/sess/snapshots/snap/body.txt" := by decide

/-- C5 (amended): for every session id S, snapshot name N, file name F
and environment, the file_path of a screenshot command equals
./resources/snapshots/N/images/F and a SaveHtml file_path equals
./resources/snapshots/N/body.txt — relative paths that never involve S,
BENCHAI_SAVEDIR or the home cache directory — while get_save_path
(used for the live-session command and response directories, not for
these file paths) returns root/agent/sessions with root taken from
BENCHAI_SAVEDIR or defaulting to home/.cache/benchai. -/
theorem file_path_resources_layout (S N F : String) (env : Option String)
    (home : String) :
    FullPageScreenshot.file_path N F = "./resources/snapshots/" ++ N ++ "/images/" ++ F ∧
    ElementScreenShot.file_path N F = "./resources/snapshots/" ++ N ++ "/images/" ++ F ∧
    SaveHtml.file_path N = "./resources/snapshots/" ++ N ++ "/body.txt" ∧
    get_save_path env home =
      (match env with
       | some p => p
       | none => home ++ "/.cache/benchai") ++ "/agent/sessions" ∧
    get_live_session_path env home S = get_save_path env home ++ "/" ++ S := by
  have himg : ∀ M G : String,
      pathJoin ["./resources", "snapshots", M, "images", G] =
        "./resources/snapshots/" ++ M ++ "/images/" ++ G := by
    intro M G
    show "./resources" ++ "/" ++ ("snapshots" ++ "/" ++ (M ++ "/" ++ ("images" ++ "/" ++ G))) =
      "./resources/snapshots/" ++ M ++ "/images/" ++ G
    simp only [← String.append_assoc]
    rw [show ("./resources" : String) ++ "/" ++ "snapshots" ++ "/" = "./resources/snapshots/"
      from by decide]
    rw [str_glue (("./resources/snapshots/" ++ M) ++ "/") "images" "/" "images/" (by decide)]
    rw [str_glue ("./resources/snapshots/" ++ M) "/" "images/" "/images/" (by decide)]
  refine ⟨himg N F, himg N F, ?_, ?_, ?_⟩
  · show "./resources" ++ "/" ++ ("snapshots" ++ "/" ++ (N ++ "/" ++ "body.txt")) =
      "./resources/snapshots/" ++ N ++ "/body.txt"
    simp only [← String.append_assoc]
    rw [show ("./resources" : String) ++ "/" ++ "snapshots" ++ "/" = "./resources/snapshots/"
      from by decide]
    rw [str_glue ("./resources/snapshots/" ++ N) "/" "body.txt" "/body.txt" (by decide)]
  · cases env with
    | some p =>
      show p ++ "/" ++ ("agent" ++ "/" ++ "sessions") = p ++ "/agent/sessions"
      rw [str_glue p "/" ("agent" ++ "/" ++ "sessions") "/agent/sessions" (by decide)]
    | none =>
      show home ++ "/" ++ (".cache" ++ "/" ++ "benchai") ++ "/" ++
          ("agent" ++ "/" ++ "sessions") =
        home ++ "/.cache/benchai" ++ "/agent/sessions"
      rw [str_glue home "/" (".cache" ++ "/" ++ "benchai") "/.cache/benchai" (by decide)]
      rw [str_glue (home ++ "/.cache/benchai") "/" ("agent" ++ "/" ++ "sessions")
        "/agent/sessions" (by decide)]
  · rfl

/-- Witness for get_settings_omits_zero_timeout at a concrete browser
operation with timeout 0. -/
theorem get_settings_omits_zero_timeout_witness :
    Operation.get_settings ⟨"browser", some 0, "sess", false, []⟩ = [] ∧
    Operation.get_settings ⟨"browser", some 0, "sess", false, []⟩ =
      Operation.get_settings ⟨"browser", none, "sess", false, []⟩ ∧
    ∀ hl : Bool,
      (pyDict (BrowserOperations.get_settings ⟨⟨"browser", some 0, "sess", false, []⟩, hl⟩)).hasKey
          "timeout" = false ∧
      (BrowserOperations.to_dict ⟨⟨"browser", some 0, "sess", false, []⟩, hl⟩).lookup
          "settings" = .ok (pyDict [("headless", .bool hl)]) :=
  get_settings_omits_zero_timeout ⟨"browser", some 0, "sess", false, []⟩ rfl
